import Mathlib

/-!
Verification of the few-shot segmentation evaluation script
(`test.py` together with `config.py`).

The development shallowly embeds the evaluation pipeline:

* the prototype-distance decoder of the `metric` branch
  (`test.py`, lines 85-94): masked spatial averaging of support
  features into foreground/background prototypes, squared-distance
  nearest-prototype classification of query pixels;
* the run orchestration of `test()` (seeding, asserts, per-run
  episode loop, per-run and final reporting) as an event trace;
* the `Metric` accumulator used by `test()`. Its source file
  (`util/metric.py`) is not part of the two files under review, so
  that component is modelled from the specification text.

Tensors are embedded as dimension records with total valuation
functions into `ℚ`; machine floats are modelled by exact rationals.
PyTorch shape constraints (broadcasting of the prototype batch and
boolean-mask assignment) are made explicit: an operation whose
operand shapes are incompatible is modelled as returning `none`.
-/

namespace FewShotSeg

/-! ### The prototype-distance decoder (src/test.py lines 85-94) -/

/-- The epsilon guard `1e-8` added to prototype denominators
(`test.py` lines 89-90). -/
def eps : ℚ := 1 / 100000000

/-- One support sample after the concatenation of line 86: a feature
map `fts` with `C` channels over an `H × W` spatial grid together with
its (float-valued) foreground mask. The elementwise product
`support_fts * support_fg_mask.unsqueeze(1)` requires feature map and
mask to share the spatial grid, so a single `H`, `W` is carried. -/
structure Sample where
  C : ℕ
  H : ℕ
  W : ℕ
  fts : ℕ → ℕ → ℕ → ℚ
  fgMask : ℕ → ℕ → ℚ

/-- One query feature map (`query_fts` for the single query). -/
structure Query where
  C : ℕ
  H : ℕ
  W : ℕ
  fts : ℕ → ℕ → ℕ → ℚ

/-- An integer-valued pixel map: a ground-truth label map
(`query_labels[i]`) or a prediction map (`query_pred[i]`). -/
structure LabelMap where
  H : ℕ
  W : ℕ
  val : ℕ → ℕ → ℕ

/-- Sum of a scalar field over the spatial grid: `torch.sum(·, dim=(-2,-1))`. -/
def spatialSum (H W : ℕ) (f : ℕ → ℕ → ℚ) : ℚ :=
  ∑ h ∈ Finset.range H, ∑ w ∈ Finset.range W, f h w

/-- Elementwise product of a feature map with a mask broadcast over the
channel dimension: `support_fts * mask.unsqueeze(1)`. -/
def mulMask (fts : ℕ → ℕ → ℕ → ℚ) (mask : ℕ → ℕ → ℚ) : ℕ → ℕ → ℕ → ℚ :=
  fun c h w => fts c h w * mask h w

/-- The pointwise complement `1 - support_fg_mask` (line 90). -/
def oneMinus (mask : ℕ → ℕ → ℚ) : ℕ → ℕ → ℚ :=
  fun h w => 1 - mask h w

/-- Foreground prototype of one support sample, channel `c`
(`test.py` line 89): spatial sum of the mask-weighted features divided
by the mask sum plus `1e-8`. -/
def supportFtsPos (s : Sample) (c : ℕ) : ℚ :=
  spatialSum s.H s.W (fun h w => mulMask s.fts s.fgMask c h w) /
    (spatialSum s.H s.W s.fgMask + eps)

/-- Background prototype of one support sample, channel `c`
(`test.py` line 90): same with the complemented mask. -/
def supportFtsNeg (s : Sample) (c : ℕ) : ℚ :=
  spatialSum s.H s.W (fun h w => mulMask s.fts (oneMinus s.fgMask) c h w) /
    (spatialSum s.H s.W (oneMinus s.fgMask) + eps)

/-- The foreground-prototype denominator `Σ fg_mask + 1e-8` of line 89. -/
def posDenom (s : Sample) : ℚ :=
  spatialSum s.H s.W s.fgMask + eps

/-- The background-prototype denominator `Σ (1 - fg_mask) + 1e-8` of line 90. -/
def negDenom (s : Sample) : ℚ :=
  spatialSum s.H s.W (oneMinus s.fgMask) + eps

/-- The specification formula
`fg_prototype = Σ_spatial(embedding ⊙ fg_mask) / (Σ_spatial(fg_mask) + ε)`
with `ε = 1e-8`, written directly from the spec text for comparison
with the code-derived `supportFtsPos`. -/
def fgPrototypeSpec (s : Sample) (c : ℕ) : ℚ :=
  (∑ h ∈ Finset.range s.H, ∑ w ∈ Finset.range s.W, s.fts c h w * s.fgMask h w) /
    ((∑ h ∈ Finset.range s.H, ∑ w ∈ Finset.range s.W, s.fgMask h w) + 1 / 100000000)

/-- The specification formula
`bg_prototype = Σ_spatial(embedding ⊙ (1 − fg_mask)) / (Σ_spatial(1 − fg_mask) + ε)`
with `ε = 1e-8`, written directly from the spec text. -/
def bgPrototypeSpec (s : Sample) (c : ℕ) : ℚ :=
  (∑ h ∈ Finset.range s.H, ∑ w ∈ Finset.range s.W, s.fts c h w * (1 - s.fgMask h w)) /
    ((∑ h ∈ Finset.range s.H, ∑ w ∈ Finset.range s.W, (1 - s.fgMask h w)) + 1 / 100000000)

/-- Squared Euclidean distance over channels between the query feature
vector at pixel `(h, w)` and a prototype:
`((query_fts - proto)**2).sum(dim=1)` at one pixel. -/
def distSq (q : Query) (proto : ℕ → ℚ) (h w : ℕ) : ℚ :=
  ∑ c ∈ Finset.range q.C, (q.fts c h w - proto c) ^ 2

/-- The prototype-distance decoding of `test.py` lines 86-94 for one
query.  The support batch is the concatenation of line 86, one entry
per (way, shot, batch-element).  Line 93 creates `query_pred` as zeros
with the shape of the query label map; line 94 assigns `1` through a
boolean mask.  The mask `(query_fts - support_fts_pos)**2).sum(1) < ...`
broadcasts the query features `[1, C, H, W]` against the prototype
batch `[N, C, 1, 1]`, so it has leading dimension `N = ` number of
support samples and spatial shape equal to the query-feature grid.
PyTorch boolean-mask assignment into the `[1, Hl, Wl]` prediction
requires the mask shape to coincide with it, so the assignment is a
shape error — modelled as `none` — unless the support batch is a single
sample and the embedding grid equals the label grid.  No resampling of
any kind is performed. -/
def decodeProto (supports : List Sample) (q : Query) (ql : LabelMap) :
    Option LabelMap :=
  match supports with
  | [s] =>
    if q.H = ql.H ∧ q.W = ql.W then
      some ⟨ql.H, ql.W, fun h w =>
        if distSq q (supportFtsPos s) h w < distSq q (supportFtsNeg s) h w
        then 1 else 0⟩
    else none
  | _ => none

/-- Average over the shot-level foreground prototypes of a support
batch. Modelled from the spec: shot-level prototypes of the same class
are averaged before distance comparison; no such step exists in
`test.py`. -/
def avgProtoPos (supports : List Sample) (c : ℕ) : ℚ :=
  (supports.map (fun s => supportFtsPos s c)).sum / (supports.length : ℚ)

/-- Average over the shot-level background prototypes of a support
batch. Modelled from the spec, as for `avgProtoPos`. -/
def avgProtoNeg (supports : List Sample) (c : ℕ) : ℚ :=
  (supports.map (fun s => supportFtsNeg s c)).sum / (supports.length : ℚ)

/-- Modelled from the spec: the decoding that the specification
describes for `N` shots — average the `N` shot-level prototypes of the
class into a single prototype, then classify each query pixel by
nearest prototype.  `test.py` contains no implementation of this;
the definition exists to compare the spec text against `decodeProto`. -/
def decodeProtoAvgSpec (supports : List Sample) (q : Query) (ql : LabelMap) :
    Option LabelMap :=
  match supports with
  | [] => none
  | _ =>
    if q.H = ql.H ∧ q.W = ql.W then
      some ⟨ql.H, ql.W, fun h w =>
        if distSq q (avgProtoPos supports) h w < distSq q (avgProtoNeg supports) h w
        then 1 else 0⟩
    else none

/-! ### The run orchestration of `test()` as an event trace -/

/-- The `model_type` configuration string (`config.py` line 5).  The
constructor `unknown` stands for any string other than the two
supported values. -/
inductive ModelType where
  | fewshot
  | metric
  | unknown (s : String)
deriving DecidableEq, Repr

/-- The configuration surface consumed by `test()`: base seed, run
count, steps per run (`max_iters / batch_size` batches are drawn per
run), the task counts and the model type. -/
structure Config where
  seed : ℕ
  nRuns : ℕ
  nSteps : ℕ
  nWays : ℕ
  nShots : ℕ
  nQueries : ℕ
  modelType : ModelType
deriving DecidableEq, Repr

/-- The sanity check of `test.py` line 23:
`config.model_type in ['fewshot', 'metric']`. -/
def modelTypeOk (cfg : Config) : Bool :=
  match cfg.modelType with
  | ModelType.fewshot => true
  | ModelType.metric => true
  | ModelType.unknown _ => false

/-- The assertion of `test.py` line 50:
`n_ways == 1 and n_shots == 1 and n_queries == 1`. -/
def taskOk (cfg : Config) : Bool :=
  cfg.nWays == 1 && cfg.nShots == 1 && cfg.nQueries == 1

/-- Observable events of one execution of `test()`. -/
inductive Ev where
  | seedEv (n : ℕ)
  | decodeEv (run ep : ℕ)
  | recordEv (run ep : ℕ)
  | reportMIoU (run : Option ℕ)
  | reportBinary (run : Option ℕ)
deriving DecidableEq, Repr

/-- The events of the body of run `r` after its assert has passed:
the episode loop of lines 66-98 (each batch is decoded and then
recorded exactly once) followed by the per-run reports of lines
100-101. -/
def runBody (cfg : Config) (r : ℕ) : List Ev :=
  ((List.range cfg.nSteps).flatMap fun e => [Ev.decodeEv r e, Ev.recordEv r e]) ++
    [Ev.reportMIoU (some r), Ev.reportBinary (some r)]

/-- The outer run loop of `test.py` lines 45-101, iterated over runs
`0, …, n-1`: each run first reseeds with `config.seed + run`
(line 47), then checks the task assertion (line 50); a failed
assertion aborts the whole evaluation with the events emitted so far. -/
def runLoop (cfg : Config) : ℕ → List Ev × Option String
  | 0 => ([], none)
  | Nat.succ r =>
    match runLoop cfg r with
    | (evs, some msg) => (evs, some msg)
    | (evs, none) =>
      if taskOk cfg then
        (evs ++ Ev.seedEv (cfg.seed + r) :: runBody cfg r, none)
      else
        (evs ++ [Ev.seedEv (cfg.seed + r)], some "unsupported task configuration")

/-- The full trace of `test()`: the initial `set_seed(config.seed)`
of line 21, the model-type sanity check of line 23, the run loop, and
the final cross-run reports of lines 107-108.  The second component is
the error of the first failed assertion, if any. -/
def testTrace (cfg : Config) : List Ev × Option String :=
  if modelTypeOk cfg then
    match runLoop cfg cfg.nRuns with
    | (evs, some msg) => (Ev.seedEv cfg.seed :: evs, some msg)
    | (evs, none) =>
      (Ev.seedEv cfg.seed :: evs ++ [Ev.reportMIoU none, Ev.reportBinary none], none)
  else ([Ev.seedEv cfg.seed], some "unknown model type")

/-! ### The `Metric` accumulator

`test.py` imports `Metric` from `util/metric.py`, which is not among
the files under review; the component is modelled from the
specification (§4.2 of the spec). -/

/-- The ignore-label sentinel (`config.py`: `ignore_label = 255`). -/
def ignoreLabel : ℕ := 255

/-- Number of pixels of an `H × W` grid satisfying a predicate. -/
def countPix (H W : ℕ) (p : ℕ → ℕ → Bool) : ℕ :=
  ∑ h ∈ Finset.range H, ∑ w ∈ Finset.range W, if p h w then 1 else 0

/-- Modelled from the spec: intersection count of one class — pixels
where prediction and label both equal the class, with ignore-labelled
pixels dropped. -/
def interCount (pred lbl : LabelMap) (c : ℕ) : ℕ :=
  countPix lbl.H lbl.W fun h w =>
    (pred.val h w == c) && (lbl.val h w == c) && !(lbl.val h w == ignoreLabel)

/-- Modelled from the spec: union count of one class — pixels where
prediction or label equals the class, with ignore-labelled pixels
dropped. -/
def unionCount (pred lbl : LabelMap) (c : ℕ) : ℕ :=
  countPix lbl.H lbl.W fun h w =>
    ((pred.val h w == c) || (lbl.val h w == c)) && !(lbl.val h w == ignoreLabel)

/-- Modelled from the spec: the binary collapse — any class id greater
than `0` becomes foreground `1`.  The ignore sentinel is preserved so
that ignore-labelled pixels stay excluded from every count. -/
def collapse (m : LabelMap) : LabelMap :=
  ⟨m.H, m.W, fun h w =>
    if m.val h w = 0 then 0
    else if m.val h w = ignoreLabel then ignoreLabel
    else 1⟩

/-- Modelled from the spec: the state of the `Metric` accumulator —
per-run per-class intersection/union counters with a lazily set
presence flag, plus the binary counters fed by collapsed maps. -/
structure Metric where
  nRuns : ℕ
  maxLabel : ℕ
  tp : ℕ → ℕ → ℕ
  un : ℕ → ℕ → ℕ
  seenFlag : ℕ → ℕ → Bool
  tpBin : ℕ → ℕ → ℕ
  unBin : ℕ → ℕ → ℕ

/-- Modelled from the spec: the zero-initialized accumulator of
`Metric(max_label=20, n_runs=config.n_runs)`. -/
def initMetric (nRuns maxLabel : ℕ) : Metric :=
  ⟨nRuns, maxLabel, fun _ _ => 0, fun _ _ => 0, fun _ _ => false,
    fun _ _ => 0, fun _ _ => 0⟩

/-- Modelled from the spec: `Metric.record(pred, lbl, labels, n_run)` —
for background `0` and every active class id, accumulate intersection
and union counts into run `run` and mark the class present; the binary
counters for classes `0` and `1` accumulate the collapsed maps. -/
def recordM (m : Metric) (pred lbl : LabelMap) (ids : List ℕ) (run : ℕ) : Metric :=
  ⟨m.nRuns, m.maxLabel,
    fun r c => if r = run ∧ (c = 0 ∨ c ∈ ids) then m.tp r c + interCount pred lbl c else m.tp r c,
    fun r c => if r = run ∧ (c = 0 ∨ c ∈ ids) then m.un r c + unionCount pred lbl c else m.un r c,
    fun r c => if r = run ∧ (c = 0 ∨ c ∈ ids) then true else m.seenFlag r c,
    fun r c => if r = run ∧ c < 2 then m.tpBin r c + interCount (collapse pred) (collapse lbl) c else m.tpBin r c,
    fun r c => if r = run ∧ c < 2 then m.unBin r c + unionCount (collapse pred) (collapse lbl) c else m.unBin r c⟩

/-- Modelled from the spec: per-class IoU of one run — defined only
when the class was seen in the run and its union is non-zero; an
absent class or a zero union is excluded (`none`), not coerced. -/
def perClassIoU (m : Metric) (run c : ℕ) : Option ℚ :=
  if m.seenFlag run c = true ∧ m.un run c ≠ 0 then
    some ((m.tp run c : ℚ) / (m.un run c : ℚ))
  else none

/-- Arithmetic mean of a list of rationals (empty list gives `0`). -/
def listMean (xs : List ℚ) : ℚ := xs.sum / (xs.length : ℚ)

/-- Mean over the defined entries of a list of optional values. -/
def definedMean (xs : List (Option ℚ)) : ℚ := listMean (xs.filterMap id)

/-- Population variance of a list of rationals: the mean of squared
deviations from the mean.  The population standard deviation of the
list is the square root of this value; the model stays in `ℚ`, so the
variance is the carried quantity. -/
def popVar (xs : List ℚ) : ℚ :=
  listMean (xs.map fun x => (x - listMean xs) ^ 2)

/-- Mean over the defined entries, `none` when no entry is defined. -/
def optMean (xs : List (Option ℚ)) : Option ℚ :=
  match xs.filterMap id with
  | [] => none
  | ys => some (listMean ys)

/-- Population variance over the defined entries, `none` when no entry
is defined. -/
def optVar (xs : List (Option ℚ)) : Option ℚ :=
  match xs.filterMap id with
  | [] => none
  | ys => some (popVar ys)

/-- Modelled from the spec: mean IoU of one run — the average of the
per-class IoUs over the requested classes that are defined in the run. -/
def meanIoURun (m : Metric) (labels : List ℕ) (run : ℕ) : ℚ :=
  definedMean (labels.map (perClassIoU m run))

/-- Modelled from the spec: `get_mIoU(labels, n_run=run)` — the
per-class IoU list and the mean IoU of one run. -/
def getMIoURun (m : Metric) (labels : List ℕ) (run : ℕ) :
    List (Option ℚ) × ℚ :=
  (labels.map (perClassIoU m run), meanIoURun m labels run)

/-- Modelled from the spec: `get_mIoU(labels)` without a run index —
the 4-tuple (per-class IoU mean across runs, per-class IoU spread
across runs, mean across runs of the per-run mean IoU, population
spread of the per-run mean IoUs).  Spread components carry the
population variance, the square of the spec's population standard
deviation. -/
def getMIoUAll (m : Metric) (labels : List ℕ) :
    List (Option ℚ) × List (Option ℚ) × ℚ × ℚ :=
  (labels.map fun c => optMean ((List.range m.nRuns).map fun r => perClassIoU m r c),
   labels.map fun c => optVar ((List.range m.nRuns).map fun r => perClassIoU m r c),
   listMean ((List.range m.nRuns).map fun r => meanIoURun m labels r),
   popVar ((List.range m.nRuns).map fun r => meanIoURun m labels r))

/-- Modelled from the spec: binary per-class IoU of one run, from the
binary counters; defined only for non-zero union. -/
def perClassIoUBin (m : Metric) (run c : ℕ) : Option ℚ :=
  if m.unBin run c ≠ 0 then some ((m.tpBin run c : ℚ) / (m.unBin run c : ℚ))
  else none

/-- Modelled from the spec: `get_mIoU_binary(n_run=run)` — per-class
(background / foreground) binary IoUs and their mean for one run. -/
def getMIoUBinaryRun (m : Metric) (run : ℕ) : List (Option ℚ) × ℚ :=
  ([0, 1].map (perClassIoUBin m run),
   definedMean ([0, 1].map (perClassIoUBin m run)))

/-- Modelled from the spec: `get_mIoU_binary()` without a run index —
the same 4-tuple shape as `getMIoUAll`, over the two binary classes. -/
def getMIoUBinaryAll (m : Metric) :
    List (Option ℚ) × List (Option ℚ) × ℚ × ℚ :=
  ([0, 1].map fun c => optMean ((List.range m.nRuns).map fun r => perClassIoUBin m r c),
   [0, 1].map fun c => optVar ((List.range m.nRuns).map fun r => perClassIoUBin m r c),
   listMean ((List.range m.nRuns).map fun r => (getMIoUBinaryRun m r).2),
   popVar ((List.range m.nRuns).map fun r => (getMIoUBinaryRun m r).2))

/-- The body of the episode loop at `test.py` lines 96-98: from a batch
of predictions and a batch of labels, `metric.record` is called once,
with the first element (`query_pred[0]`, `query_labels[0]`) of the
batch. -/
def processBatch (m : Metric) (preds lbls : ℕ → LabelMap) (ids : List ℕ) (run : ℕ) :
    Metric :=
  recordM m (preds 0) (lbls 0) ids run

/-! ### Concrete inputs used by the witnesses and counterexamples -/

/-- A support sample whose foreground mask is identically `0`. -/
def sAllZero : Sample := ⟨1, 2, 2, fun _ _ _ => 1, fun _ _ => 0⟩

/-- A support sample whose foreground mask is identically `1`. -/
def sAllOne : Sample := ⟨1, 2, 2, fun _ _ _ => 1, fun _ _ => 1⟩

/-- A support sample with the constant mask `1/2`, making foreground and
background prototypes coincide. -/
def sTie : Sample := ⟨1, 1, 1, fun _ _ _ => 1, fun _ _ => 1 / 2⟩

/-- A constant-zero one-pixel query feature map. -/
def qTie : Query := ⟨1, 1, 1, fun _ _ _ => 0⟩

/-- A one-pixel ground-truth label map. -/
def qlOne : LabelMap := ⟨1, 1, fun _ _ => 0⟩

/-- The prediction map `decodeProto [sTie] qTie qlOne` produces. -/
def pmTie : LabelMap :=
  ⟨1, 1, fun h w =>
    if distSq qTie (supportFtsPos sTie) h w < distSq qTie (supportFtsNeg sTie) h w
    then 1 else 0⟩

/-- A fully foreground one-pixel support sample. -/
def sFg : Sample := ⟨1, 1, 1, fun _ _ _ => 1, fun _ _ => 1⟩

/-- A one-pixel query feature map equal to the support features. -/
def qFg : Query := ⟨1, 1, 1, fun _ _ _ => 1⟩

/-- The prediction map `decodeProto [sFg] qFg qlOne` produces. -/
def pmFg : LabelMap :=
  ⟨1, 1, fun h w =>
    if distSq qFg (supportFtsPos sFg) h w < distSq qFg (supportFtsNeg sFg) h w
    then 1 else 0⟩

/-- A query feature map at a `1 × 1` embedding resolution. -/
def qCoarse : Query := ⟨1, 1, 1, fun _ _ _ => 0⟩

/-- A `2 × 2` ground-truth label map, finer than `qCoarse`. -/
def qlFine : LabelMap := ⟨2, 2, fun _ _ => 0⟩

/-- First shot of a two-shot support batch. -/
def sShotA : Sample := ⟨1, 1, 1, fun _ _ _ => 2, fun _ _ => 1⟩

/-- Second shot of a two-shot support batch. -/
def sShotB : Sample := ⟨1, 1, 1, fun _ _ _ => 4, fun _ _ => 1⟩

/-- A configuration matching `config.py` in test mode except for a
small run/step count: seed `1234`, `2` runs of `1` step, task `1/1/1`,
the `metric` model type. -/
def cfgGood : Config := ⟨1234, 2, 1, 1, 1, 1, ModelType.metric⟩

/-- A configuration with `n_ways = 2`, violating the line-50 assert. -/
def cfgBadWays : Config := ⟨1234, 5, 1, 2, 1, 1, ModelType.metric⟩

/-- A configuration with `n_shots = 2`, violating the line-50 assert. -/
def cfgTwoShots : Config := ⟨1234, 5, 1, 1, 2, 1, ModelType.metric⟩

/-- Label maps used by the batch-processing witness. -/
def lmZero : LabelMap := ⟨1, 1, fun _ _ => 0⟩

/-- A second, distinct label map (different spatial shape). -/
def lmBig : LabelMap := ⟨3, 3, fun _ _ => 2⟩

/-- A third label map, distinct from both. -/
def lmMid : LabelMap := ⟨2, 2, fun _ _ => 1⟩

/-- A batch whose element `0` is `lmZero` and whose later elements are `lmMid`. -/
def batchA : ℕ → LabelMap := fun i => if i = 0 then lmZero else lmMid

/-- A batch agreeing with `batchA` at element `0` but differing beyond it. -/
def batchB : ℕ → LabelMap := fun i => if i = 0 then lmZero else lmBig

/-! ### Theorems -/

/-- A failed task assertion aborts the run loop during run `0`, right
after that run's reseeding: only the reseed event is emitted. -/
theorem runLoop_of_bad_task (cfg : Config) (hbad : taskOk cfg = false) :
    ∀ n, 0 < n →
      runLoop cfg n =
        ([Ev.seedEv (cfg.seed + 0)], some "unsupported task configuration") := by
  intro n hn
  induction n with
  | zero => exact absurd hn (by omega)
  | succ k ih =>
    cases Nat.eq_zero_or_pos k with
    | inl h0 =>
      subst h0
      simp [runLoop, hbad]
    | inr hk =>
      simp [runLoop, ih hk]

/-- With the task assertion satisfied, the run loop over `n` runs
produces, per run, the reseed event followed by the run body. -/
theorem runLoop_of_good (cfg : Config) (hgood : taskOk cfg = true) (n : ℕ) :
    runLoop cfg n =
      ((List.range n).flatMap fun r => Ev.seedEv (cfg.seed + r) :: runBody cfg r,
       none) := by
  induction n with
  | zero => simp [runLoop]
  | succ k ih =>
    simp [runLoop, ih, hgood, List.range_succ]

/-- Claim C1: under the prototype-distance strategy the foreground
prototype of every support sample is the spatial sum of the embedding
weighted by the foreground mask divided by the spatial mask sum plus
`ε = 1e-8`, and the background prototype is the same with the mask
complemented — the code-derived prototypes agree with the spec
formulas channelwise. -/
theorem claim_C1_prototype_formula (s : Sample) (c : ℕ) :
    supportFtsPos s c = fgPrototypeSpec s c ∧
    supportFtsNeg s c = bgPrototypeSpec s c :=
  ⟨rfl, rfl⟩

/-- Claim C6: for every support sample whose mask values lie in
`[0, 1]` — in particular an all-zero or all-one foreground mask — both
prototype denominators are strictly positive, floored by `ε = 1e-8`,
so the prototype computation never divides by zero. -/
theorem claim_C6_eps_guard (s : Sample)
    (hm : ∀ h w, 0 ≤ s.fgMask h w ∧ s.fgMask h w ≤ 1) :
    0 < posDenom s ∧ 0 < negDenom s := by
  have heps : (0 : ℚ) < eps := by norm_num [eps]
  constructor
  · have h1 : 0 ≤ spatialSum s.H s.W s.fgMask := by
      unfold spatialSum
      exact Finset.sum_nonneg fun h _ =>
        Finset.sum_nonneg fun w _ => (hm h w).1
    unfold posDenom
    linarith
  · have h1 : 0 ≤ spatialSum s.H s.W (oneMinus s.fgMask) := by
      unfold spatialSum oneMinus
      refine Finset.sum_nonneg fun h _ => Finset.sum_nonneg fun w _ => ?_
      have := (hm h w).2
      linarith
    unfold negDenom
    linarith

/-- Witness for claim C6: the all-zero and the all-one foreground
masks both give strictly positive denominators. -/
theorem claim_C6_witness :
    (0 < posDenom sAllZero ∧ 0 < negDenom sAllZero) ∧
    (0 < posDenom sAllOne ∧ 0 < negDenom sAllOne) :=
  ⟨claim_C6_eps_guard sAllZero (by intro h w; constructor <;> norm_num [sAllZero]),
   claim_C6_eps_guard sAllOne (by intro h w; constructor <;> norm_num [sAllOne])⟩

/-- Claim C2: for every query pixel of a successful prototype-distance
decode, the predicted label is `1` exactly when the squared Euclidean
distance to the foreground prototype is strictly smaller than the
distance to the background prototype, and `0` otherwise; an exact tie
yields `0`. -/
theorem claim_C2_nearest_prototype (s : Sample) (q : Query) (ql : LabelMap)
    (pm : LabelMap) (hdec : decodeProto [s] q ql = some pm) (h w : ℕ) :
    (pm.val h w = 1 ↔
      distSq q (supportFtsPos s) h w < distSq q (supportFtsNeg s) h w) ∧
    (pm.val h w = 0 ↔
      ¬ distSq q (supportFtsPos s) h w < distSq q (supportFtsNeg s) h w) ∧
    (distSq q (supportFtsPos s) h w = distSq q (supportFtsNeg s) h w →
      pm.val h w = 0) := by
  have hval : pm.val h w =
      (if distSq q (supportFtsPos s) h w < distSq q (supportFtsNeg s) h w
       then 1 else 0) := by
    simp only [decodeProto] at hdec
    split at hdec
    · cases hdec
      rfl
    · cases hdec
  rw [hval]
  by_cases hlt : distSq q (supportFtsPos s) h w < distSq q (supportFtsNeg s) h w
  · refine ⟨by simp [hlt], by simp [hlt], ?_⟩
    intro heq
    rw [heq] at hlt
    exact absurd hlt (lt_irrefl _)
  · exact ⟨by simp [hlt], by simp [hlt], fun _ => by simp [hlt]⟩

/-- Witness for claim C2: a concrete support sample with constant mask
`1/2` makes both prototypes coincide, the distances tie exactly, and
the decoded pixel is background `0`. -/
theorem claim_C2_witness :
    decodeProto [sTie] qTie qlOne = some pmTie ∧
    distSq qTie (supportFtsPos sTie) 0 0 = distSq qTie (supportFtsNeg sTie) 0 0 ∧
    pmTie.val 0 0 = 0 := by
  have hdec : decodeProto [sTie] qTie qlOne = some pmTie := rfl
  have htie : distSq qTie (supportFtsPos sTie) 0 0 =
      distSq qTie (supportFtsNeg sTie) 0 0 := by
    norm_num [distSq, supportFtsPos, supportFtsNeg, spatialSum, mulMask,
      oneMinus, sTie, qTie, eps, Finset.sum_range_succ]
  exact ⟨hdec, htie,
    (claim_C2_nearest_prototype sTie qTie qlOne pmTie hdec 0 0).2.2 htie⟩

/-- Claim C9: every pixel of a prediction map produced by the
prototype-distance decode is `0` or `1`: the map is initialized to
zeros and only `1` is ever written into it. -/
theorem claim_C9_prediction_binary (supports : List Sample) (q : Query)
    (ql : LabelMap) (pm : LabelMap)
    (hdec : decodeProto supports q ql = some pm) (h w : ℕ) :
    pm.val h w = 0 ∨ pm.val h w = 1 := by
  cases supports with
  | nil => simp [decodeProto] at hdec
  | cons a t =>
    cases t with
    | cons b t2 => simp [decodeProto] at hdec
    | nil =>
      have hval : pm.val h w =
          (if distSq q (supportFtsPos a) h w < distSq q (supportFtsNeg a) h w
           then 1 else 0) := by
        simp only [decodeProto] at hdec
        split at hdec
        · cases hdec
          rfl
        · cases hdec
      rw [hval]
      by_cases hlt : distSq q (supportFtsPos a) h w < distSq q (supportFtsNeg a) h w
      · right
        simp [hlt]
      · left
        simp [hlt]

/-- Witness for claim C9: a concrete successful decode whose pixel
value is `0` or `1`. -/
theorem claim_C9_witness : pmFg.val 0 0 = 0 ∨ pmFg.val 0 0 = 1 :=
  claim_C9_prediction_binary [sFg] qFg qlOne pmFg rfl 0 0

/-- Claim C4 counterexample: with the embedding at `1 × 1` resolution
and the ground-truth label map at `2 × 2`, the decoder does not
resample — the boolean-mask assignment of line 94 is a shape error and
no prediction map is produced at all. -/
theorem claim_C4_counterexample :
    decodeProto [sFg] qCoarse qlFine = none := rfl

/-- Claim C4 amended: the decoder performs no resampling; a
prototype-distance decode (single support) succeeds exactly when the
embedding spatial resolution equals the label-map resolution, and when
it succeeds the returned prediction map has the label map's shape. -/
theorem claim_C4_amended_shape (s : Sample) (q : Query) (ql : LabelMap) :
    ((decodeProto [s] q ql).isSome = true ↔ q.H = ql.H ∧ q.W = ql.W) ∧
    ∀ pm, decodeProto [s] q ql = some pm → pm.H = ql.H ∧ pm.W = ql.W := by
  by_cases hc : q.H = ql.H ∧ q.W = ql.W
  · constructor
    · simp [decodeProto, hc]
    · intro pm hdec
      simp only [decodeProto, if_pos hc] at hdec
      cases hdec
      exact ⟨rfl, rfl⟩
  · constructor
    · simp [decodeProto, hc]
    · intro pm hdec
      simp only [decodeProto, if_neg hc] at hdec
      cases hdec

/-- Witness for claim C4 amended: at matching `1 × 1` resolutions the
decode succeeds, and on the mismatched counterexample input it fails. -/
theorem claim_C4_amended_witness :
    (decodeProto [sFg] qFg qlOne).isSome = true ∧
    ((decodeProto [sFg] qCoarse qlFine).isSome = true → False) :=
  ⟨(claim_C4_amended_shape sFg qFg qlOne).1.mpr ⟨rfl, rfl⟩,
   fun hs => by
    have := (claim_C4_amended_shape sFg qCoarse qlFine).1.mp hs
    simp [qCoarse, qlFine] at this⟩

/-- Claim C3 counterexample: on a concrete two-shot support batch the
implementation produces no prediction at all — the comparison yields
one distance map per shot and the masked assignment is a shape error —
while the spec's averaged-prototype decoding is defined; no averaging
of shot-level prototypes happens anywhere in the code. -/
theorem claim_C3_counterexample :
    decodeProto [sShotA, sShotB] qTie qlOne = none ∧
    (decodeProtoAvgSpec [sShotA, sShotB] qTie qlOne).isSome = true :=
  ⟨rfl, rfl⟩

/-- Claim C3 amended: the implemented formula does not generalize to
`N` shots by averaging — the decoder computes one prototype per
support sample and fails (shape error) on every support batch that is
not a single sample; moreover a configuration with `n_shots ≠ 1` is
rejected by the line-50 assertion before any episode is decoded. -/
theorem claim_C3_amended_no_averaging :
    (∀ (supports : List Sample) (q : Query) (ql : LabelMap),
      supports.length ≠ 1 → decodeProto supports q ql = none) ∧
    (∀ cfg : Config, modelTypeOk cfg = true → cfg.nShots ≠ 1 → 0 < cfg.nRuns →
      (testTrace cfg).2.isSome = true ∧
        ∀ r e, Ev.decodeEv r e ∉ (testTrace cfg).1) := by
  constructor
  · intro supports q ql hlen
    cases supports with
    | nil => rfl
    | cons a t =>
      cases t with
      | nil => simp at hlen
      | cons b t2 => rfl
  · intro cfg hmt hshots hruns
    have hbad : taskOk cfg = false := by
      simp [taskOk]
      intro _
      omega
    have hrl := runLoop_of_bad_task cfg hbad cfg.nRuns hruns
    constructor
    · simp [testTrace, hmt, hrl]
    · intro r e
      simp [testTrace, hmt, hrl]

/-- Witness for claim C3: the two-shot batch has length `2 ≠ 1` and
decodes to nothing, and the two-shot configuration aborts with no
decode event in its trace. -/
theorem claim_C3_amended_witness :
    decodeProto [sShotA, sShotB] qTie qlOne = none ∧
    ((testTrace cfgTwoShots).2.isSome = true ∧
      Ev.decodeEv 0 0 ∉ (testTrace cfgTwoShots).1) :=
  ⟨claim_C3_amended_no_averaging.1 [sShotA, sShotB] qTie qlOne (by decide),
   ⟨(claim_C3_amended_no_averaging.2 cfgTwoShots rfl (by decide) (by decide)).1,
    (claim_C3_amended_no_averaging.2 cfgTwoShots rfl (by decide) (by decide)).2 0 0⟩⟩

/-- Claim C5: a configuration whose model type is not one of the two
supported strategies, or (once a run starts) whose way/shot/query
counts are not exactly `1/1/1`, makes `test()` abort with an assertion
error before any episode is decoded or recorded — it never silently
degrades. -/
theorem claim_C5_config_error (cfg : Config)
    (hbad : modelTypeOk cfg = false ∨ (0 < cfg.nRuns ∧ taskOk cfg = false)) :
    (testTrace cfg).2.isSome = true ∧
    (∀ r e, Ev.decodeEv r e ∉ (testTrace cfg).1) ∧
    (∀ r e, Ev.recordEv r e ∉ (testTrace cfg).1) := by
  by_cases hmt : modelTypeOk cfg = true
  · have hb : 0 < cfg.nRuns ∧ taskOk cfg = false := by
      cases hbad with
      | inl h => rw [hmt] at h; cases h
      | inr h => exact h
    have hrl := runLoop_of_bad_task cfg hb.2 cfg.nRuns hb.1
    refine ⟨by simp [testTrace, hmt, hrl], ?_, ?_⟩
    · intro r e
      simp [testTrace, hmt, hrl]
    · intro r e
      simp [testTrace, hmt, hrl]
  · have hmf : modelTypeOk cfg = false := by
      cases hv : modelTypeOk cfg
      · rfl
      · exact absurd hv hmt
    refine ⟨by simp [testTrace, hmf], ?_, ?_⟩
    · intro r e
      simp [testTrace, hmf]
    · intro r e
      simp [testTrace, hmf]

/-- Witness for claim C5: the `n_ways = 2` configuration aborts with
no decode and no record event. -/
theorem claim_C5_witness :
    (testTrace cfgBadWays).2.isSome = true ∧
    Ev.decodeEv 0 0 ∉ (testTrace cfgBadWays).1 ∧
    Ev.recordEv 0 0 ∉ (testTrace cfgBadWays).1 :=
  ⟨(claim_C5_config_error cfgBadWays (Or.inr ⟨by decide, by decide⟩)).1,
   (claim_C5_config_error cfgBadWays (Or.inr ⟨by decide, by decide⟩)).2.1 0 0,
   (claim_C5_config_error cfgBadWays (Or.inr ⟨by decide, by decide⟩)).2.2 0 0⟩

/-- Claim C7: under a valid configuration the trace of `test()` is
exactly: the initial seeding, then for each run `r` the reseeding to
`base_seed + r` followed by, per episode, one decode and then exactly
one record, followed by that run's `get_mIoU` and `get_mIoU_binary`
reports with the run index fixed; only after all runs come the
cross-run reports — no step out of this order. -/
theorem claim_C7_call_order (cfg : Config)
    (h1 : modelTypeOk cfg = true) (h2 : taskOk cfg = true) :
    testTrace cfg =
      (Ev.seedEv cfg.seed ::
        (((List.range cfg.nRuns).flatMap fun r =>
          Ev.seedEv (cfg.seed + r) ::
            (((List.range cfg.nSteps).flatMap fun e =>
              [Ev.decodeEv r e, Ev.recordEv r e]) ++
              [Ev.reportMIoU (some r), Ev.reportBinary (some r)])) ++
          [Ev.reportMIoU none, Ev.reportBinary none]),
       none) := by
  rw [testTrace, if_pos h1, runLoop_of_good cfg h2]
  rfl

/-- Witness for claim C7: the full trace of a two-run, one-episode
configuration, spelled out. -/
theorem claim_C7_witness :
    testTrace cfgGood =
      ([Ev.seedEv 1234,
        Ev.seedEv 1234, Ev.decodeEv 0 0, Ev.recordEv 0 0,
        Ev.reportMIoU (some 0), Ev.reportBinary (some 0),
        Ev.seedEv 1235, Ev.decodeEv 1 0, Ev.recordEv 1 0,
        Ev.reportMIoU (some 1), Ev.reportBinary (some 1),
        Ev.reportMIoU none, Ev.reportBinary none], none) :=
  (claim_C7_call_order cfgGood rfl rfl).trans (by decide)

/-- Claim C8 (spec-modelled `Metric`): `get_mIoU` without a run index
returns the 4-tuple (per-class IoU mean across runs, per-class IoU
spread across runs, overall mean-IoU mean across runs, overall
mean-IoU spread across runs), where each spread component is the
population statistic over the `R` run-level values produced by the
per-run `get_mIoU`; `get_mIoU_binary` without a run index has the same
shape over the two binary classes.  The model carries the population
variance, the square of the spec's population standard deviation. -/
theorem claim_C8_cross_run_stats (m : Metric) (labels : List ℕ) :
    getMIoUAll m labels =
      (labels.map fun c =>
        optMean ((List.range m.nRuns).map fun r => perClassIoU m r c),
       labels.map fun c =>
        optVar ((List.range m.nRuns).map fun r => perClassIoU m r c),
       listMean ((List.range m.nRuns).map fun r => (getMIoURun m labels r).2),
       popVar ((List.range m.nRuns).map fun r => (getMIoURun m labels r).2)) ∧
    getMIoUBinaryAll m =
      ([0, 1].map fun c =>
        optMean ((List.range m.nRuns).map fun r => perClassIoUBin m r c),
       [0, 1].map fun c =>
        optVar ((List.range m.nRuns).map fun r => perClassIoUBin m r c),
       listMean ((List.range m.nRuns).map fun r => (getMIoUBinaryRun m r).2),
       popVar ((List.range m.nRuns).map fun r => (getMIoUBinaryRun m r).2)) ∧
    (getMIoUBinaryAll m).1.length = 2 ∧
    (getMIoUBinaryAll m).2.1.length = 2 :=
  ⟨rfl, rfl, rfl, rfl⟩

/-- Claim C10: the episode-loop body invokes `record` exactly once per
batch, with the batch's first element only; hence the accumulated
state is independent of every batch element after the first. -/
theorem claim_C10_record_first_only (m : Metric) (preds lbls : ℕ → LabelMap)
    (ids : List ℕ) (run : ℕ) :
    processBatch m preds lbls ids run = recordM m (preds 0) (lbls 0) ids run ∧
    ∀ preds1 lbls1 : ℕ → LabelMap, preds1 0 = preds 0 → lbls1 0 = lbls 0 →
      processBatch m preds1 lbls1 ids run = processBatch m preds lbls ids run := by
  refine ⟨rfl, ?_⟩
  intro preds1 lbls1 hp hl
  unfold processBatch
  rw [hp, hl]

/-- Witness for claim C10: two batches that agree at element `0` but
differ at element `1` accumulate to the same state. -/
theorem claim_C10_witness :
    batchA 1 ≠ batchB 1 ∧
    processBatch (initMetric 1 20) batchA batchA [1] 0 =
      processBatch (initMetric 1 20) batchB batchB [1] 0 := by
  constructor
  · intro hEq
    have hH : lmMid.H = lmBig.H := congrArg LabelMap.H (by simpa [batchA, batchB] using hEq)
    simp [lmMid, lmBig] at hH
  · exact
      (claim_C10_record_first_only (initMetric 1 20) batchB batchB [1] 0).2
        batchA batchA rfl rfl

end FewShotSeg
